import Mathlib

/-!
Verification of the IOT_SMART_HOME data-manager core.

This file shallowly embeds the rule-evaluation-and-control core of the
repository:

* `DataManagerApp.check_and_control_ac`, `DataManagerApp.handle_message`,
  `DataManagerApp.update_thresholds` and `DataManagerMQTT.on_message`
  from `src/data_manager/data_manager.py`;
* `MqttDataCollector.process_message`, `process_text_message`,
  `check_temperature_humidity_thresholds`, `create_alert` and
  `on_message` from `src/data_manager/data_collector.py`;
* the `DatabaseManager` operations from `src/database/db_manager.py`.

Modelling conventions:

* Python floats are modelled as `ℚ`; all operations performed on them by the
  embedded code are order comparisons, which agree with IEEE semantics on the
  values involved.
* A decoded JSON payload is modelled as a record of optional fields
  (`Payload`); a field is `some v` exactly when the corresponding key is
  present in the decoded dictionary with a value of the expected type, so
  Python's `'temperature' in payload` becomes `.temperature.isSome` and
  `payload.get('temperature')` becomes the field itself.
* Database writes, MQTT publishes and GUI log appends are modelled as an
  explicit `Effect` list produced by each handler; formatted alert message
  strings (f-strings interpolating numbers) are abstracted away, while the
  plain string concatenations of `data_collector.py`'s system-log messages
  are kept verbatim.
* `json.loads` is an external library call; handlers that decode take the
  decode result as an `Option Payload` argument (`none` = `JSONDecodeError`).
* The possibility that an MQTT publish raises inside
  `send_ac_control_command`'s `try` block is modelled by a `publish_ok : Bool`
  argument; the success flag is recorded in the emitted effect.
-/

/-- Character-list prefix test, used to embed Python's `in` substring
operator. -/
def charsPref : List Char → List Char → Bool
  | [], _ => true
  | _ :: _, [] => false
  | a :: as, b :: bs => a == b && charsPref as bs

/-- Substring containment on character lists: does the needle occur
contiguously in the haystack? -/
def charsContains : List Char → List Char → Bool
  | [], needle => needle.isEmpty
  | c :: rest, needle => charsPref needle (c :: rest) || charsContains rest needle

/-- Embedding of Python's `needle in haystack` on strings. -/
def containsSubstring (haystack needle : String) : Bool :=
  charsContains haystack.toList needle.toList

/-- A decoded MQTT JSON payload (see §3 of the repository documentation:
`device_type`, `device_id`, `timestamp` plus quantity-specific fields). A
field is `some` exactly when the key is present with a well-typed value. -/
structure Payload where
  device_type : Option String
  device_id : Option String
  timestamp : Option String
  temperature : Option ℚ
  humidity : Option ℚ
  action : Option String
  state : Option String
  value : Option String
  occupancy : Option String
deriving DecidableEq, Repr

/-- An observable side effect of message processing: a database write, an
MQTT publish, or a GUI activity-log append. -/
inductive Effect where
  | insert_sensor_data (device_type device_id topic : String)
      (temperature humidity : Option ℚ)
  | insert_actuator_data (device_type device_id topic action state value : String)
  | insert_alert (alert_type severity device_type device_id topic : String)
      (value threshold : ℚ)
  | insert_system_log (log_level component message : String)
  | publish_warning
  | publish_alarm
  | publish_ac_command (command : Bool) (delivered : Bool)
  | gui_log
deriving DecidableEq, Repr

/-- Counts the database system-log writes in an effect list. -/
def count_system_log (effects : List Effect) : Nat :=
  effects.countP fun e =>
    match e with
    | .insert_system_log _ _ _ => true
    | _ => false

/-- Extracts the (at most one) AC control command attempted in an effect
list, whether or not its publish succeeded. -/
def acCommandOf (effects : List Effect) : Option Bool :=
  effects.findSome? fun e =>
    match e with
    | .publish_ac_command c _ => some c
    | _ => none

namespace DataManagerApp

/-- The mutable state of `DataManagerApp` that the message-processing code
reads and writes: the eight alert thresholds, the AC-control tracking
variables set up in `__init__`, and the `is_active` / `mqtt_client.connected`
flags guarding `check_and_control_ac`. -/
structure ManagerState where
  temp_warning_low : ℚ
  temp_warning_high : ℚ
  temp_alarm_low : ℚ
  temp_alarm_high : ℚ
  humidity_warning_low : ℚ
  humidity_warning_high : ℚ
  humidity_alarm_low : ℚ
  humidity_alarm_high : ℚ
  current_temperature : Option ℚ
  current_occupancy : Bool
  last_ac_command : Option Bool
  is_active : Bool
  connected : Bool
deriving DecidableEq, Repr

/-- The field values assigned in `DataManagerApp.__init__` (thresholds,
`current_temperature = None`, `current_occupancy = False`,
`last_ac_command = None`), with the connection flags initially off. -/
def initial_state : ManagerState where
  temp_warning_low := 18
  temp_warning_high := 28
  temp_alarm_low := 15
  temp_alarm_high := 32
  humidity_warning_low := 35
  humidity_warning_high := 70
  humidity_alarm_low := 25
  humidity_alarm_high := 85
  current_temperature := none
  current_occupancy := false
  last_ac_command := none
  is_active := false
  connected := false

/-- The `should_ac_be_on` computation inside `check_and_control_ac`, for a
present temperature reading `t`: the variable is initialised to `False`,
then rule 1 (vacant ⇒ off), rule 2 (hot and occupied ⇒ on) and rule 3
(cool ⇒ off) assign it; when no rule fires it keeps its initial value
`False`. -/
def should_ac_be_on (s : ManagerState) (t : ℚ) : Bool :=
  if !s.current_occupancy then false
  else if t > s.temp_warning_high then true
  else if t < s.temp_warning_low then false
  else false

/-- Effects of `send_ac_control_command`: the publish attempt is made inside
a `try` block whose `except` swallows any exception, so the caller always
resumes normally; on success the activity log is also appended. -/
def send_ac_control_command (publish_ok : Bool) (command : Bool) : List Effect :=
  if publish_ok then [.publish_ac_command command true, .gui_log]
  else [.publish_ac_command command false]

/-- Embedding of `DataManagerApp.check_and_control_ac`: guarded by
`is_active` and the MQTT connection, requires a temperature reading, computes
`should_ac_be_on` and sends a command only when it differs from
`last_ac_command`, updating `last_ac_command` afterwards. -/
def check_and_control_ac (publish_ok : Bool) (s : ManagerState) :
    ManagerState × List Effect :=
  if !s.is_active || !s.connected then (s, [])
  else
    match s.current_temperature with
    | none => (s, [])
    | some t =>
      let should := should_ac_be_on s t
      if some should ≠ s.last_ac_command then
        ({s with last_ac_command := some should},
         send_ac_control_command publish_ok should)
      else (s, [])

/-- The `publish_warning` call made from `handle_message`: the publish only
happens when the client is connected (`DataManagerMQTT.publish_warning`). -/
def publish_warning_eff (s : ManagerState) : List Effect :=
  if s.connected then [.publish_warning] else []

/-- The `publish_alarm` call made from `handle_message`: the publish only
happens when the client is connected (`DataManagerMQTT.publish_alarm`). -/
def publish_alarm_eff (s : ManagerState) : List Effect :=
  if s.connected then [.publish_alarm] else []

/-- The temperature alert block of `handle_message`: alarm when
`temp <= temp_alarm_low or temp >= temp_alarm_high`, else warning when
`temp <= temp_warning_low or temp >= temp_warning_high`, with the threshold
column picking the crossed bound. -/
def temp_alert_effects (s : ManagerState) (device_type device_id topic : String) :
    Option ℚ → List Effect
  | none => []
  | some t =>
    if t ≤ s.temp_alarm_low || t ≥ s.temp_alarm_high then
      .insert_alert "Temperature" "alarm" device_type device_id topic t
          (if t ≤ s.temp_alarm_low then s.temp_alarm_low else s.temp_alarm_high)
        :: (publish_alarm_eff s ++ [.gui_log])
    else if t ≤ s.temp_warning_low || t ≥ s.temp_warning_high then
      .insert_alert "Temperature" "warning" device_type device_id topic t
          (if t ≤ s.temp_warning_low then s.temp_warning_low else s.temp_warning_high)
        :: (publish_warning_eff s ++ [.gui_log])
    else []

/-- The humidity alert block of `handle_message`, mirroring the temperature
block with the humidity thresholds. -/
def humidity_alert_effects (s : ManagerState) (device_type device_id topic : String) :
    Option ℚ → List Effect
  | none => []
  | some h =>
    if h ≤ s.humidity_alarm_low || h ≥ s.humidity_alarm_high then
      .insert_alert "Humidity" "alarm" device_type device_id topic h
          (if h ≤ s.humidity_alarm_low then s.humidity_alarm_low else s.humidity_alarm_high)
        :: (publish_alarm_eff s ++ [.gui_log])
    else if h ≤ s.humidity_warning_low || h ≥ s.humidity_warning_high then
      .insert_alert "Humidity" "warning" device_type device_id topic h
          (if h ≤ s.humidity_warning_low then s.humidity_warning_low else s.humidity_warning_high)
        :: (publish_warning_eff s ++ [.gui_log])
    else []

/-- The `if temp is not None:` block of `handle_message`'s sensor branch: a
present temperature updates `current_temperature` and triggers
`check_and_control_ac`; an absent one leaves the state alone. -/
def sensor_branch_ac (publish_ok : Bool) (s : ManagerState) :
    Option ℚ → ManagerState × List Effect
  | some t => check_and_control_ac publish_ok {s with current_temperature := some t}
  | none => (s, [])

/-- Embedding of `DataManagerApp.handle_message`. Branch order as in the
source: sensor data first (`'DHT_Sensor' in device_type or 'temperature' in
payload or 'humidity' in payload`), then actuator data (`'Actuator' in
device_type or 'action' in payload or 'state' in payload`), then
`'Occupancy_Sensor'`, then `'AC_Controller'`, else nothing. In the sensor
branch a present temperature first updates `current_temperature` and runs
`check_and_control_ac`, then the alert blocks and the final activity-log
append run. -/
def handle_message (publish_ok : Bool) (s : ManagerState) (topic : String)
    (p : Payload) : ManagerState × List Effect :=
  let device_type := p.device_type.getD "Unknown"
  let device_id := p.device_id.getD "Unknown"
  if containsSubstring device_type "DHT_Sensor" || p.temperature.isSome
      || p.humidity.isSome then
    let ac := sensor_branch_ac publish_ok s p.temperature
    (ac.1,
      .insert_sensor_data device_type device_id topic p.temperature p.humidity
        :: (ac.2
            ++ temp_alert_effects s device_type device_id topic p.temperature
            ++ humidity_alert_effects s device_type device_id topic p.humidity
            ++ [.gui_log]))
  else if containsSubstring device_type "Actuator" || p.action.isSome
      || p.state.isSome then
    (s, [.insert_actuator_data device_type device_id topic
          (p.action.getD "") (p.state.getD "") (p.value.getD ""), .gui_log])
  else if containsSubstring device_type "Occupancy_Sensor" then
    let occupancy_value := p.occupancy.getD ""
    let state_value := p.state.getD "OFF"
    let occ := state_value == "ON" || occupancy_value == "Occupied"
    let ac := check_and_control_ac publish_ok {s with current_occupancy := occ}
    (ac.1, .gui_log :: ac.2)
  else if containsSubstring device_type "AC_Controller" then
    (s, [.gui_log])
  else (s, [])

/-- Embedding of `DataManagerApp.update_thresholds`: the eight text boxes are
parsed by `float(...)` and assigned one at a time in source order; the first
`ValueError` aborts the remaining assignments (the `except` branch logs an
error), leaving the earlier assignments in place. A text box whose content
does not parse is modelled as `none`. Returns the new state and whether the
success log line was reached. -/
def update_thresholds (s : ManagerState)
    (temp_low_alarm temp_low_warning temp_high_warning temp_high_alarm
     hum_low_alarm hum_low_warning hum_high_warning hum_high_alarm : Option ℚ) :
    ManagerState × Bool :=
  match temp_low_alarm with
  | none => (s, false)
  | some v1 =>
    let s := {s with temp_alarm_low := v1}
    match temp_low_warning with
    | none => (s, false)
    | some v2 =>
      let s := {s with temp_warning_low := v2}
      match temp_high_warning with
      | none => (s, false)
      | some v3 =>
        let s := {s with temp_warning_high := v3}
        match temp_high_alarm with
        | none => (s, false)
        | some v4 =>
          let s := {s with temp_alarm_high := v4}
          match hum_low_alarm with
          | none => (s, false)
          | some v5 =>
            let s := {s with humidity_alarm_low := v5}
            match hum_low_warning with
            | none => (s, false)
            | some v6 =>
              let s := {s with humidity_warning_low := v6}
              match hum_high_warning with
              | none => (s, false)
              | some v7 =>
                let s := {s with humidity_warning_high := v7}
                match hum_high_alarm with
                | none => (s, false)
                | some v8 => ({s with humidity_alarm_high := v8}, true)

end DataManagerApp

namespace DataManagerMQTT

/-- Embedding of `DataManagerMQTT.on_message`: a successful JSON decode is
forwarded to the registered handler (`DataManagerApp.handle_message`); a
`JSONDecodeError` is only printed to the console — no database write, no
state change. -/
def on_message (publish_ok : Bool) (s : DataManagerApp.ManagerState)
    (topic : String) (decoded : Option Payload) :
    DataManagerApp.ManagerState × List Effect :=
  match decoded with
  | some p => DataManagerApp.handle_message publish_ok s topic p
  | none => (s, [])

end DataManagerMQTT

namespace DataManagerApp

/-- A DHT sensor payload carrying only a temperature reading, as used by the
hysteresis scenario of the repository documentation. -/
def dht_payload (t : ℚ) : Payload where
  device_type := some "DHT_Sensor"
  device_id := some "dht_1"
  timestamp := none
  temperature := some t
  humidity := none
  action := none
  state := none
  value := none
  occupancy := none

/-- Processes a sequence of DHT temperature readings through
`handle_message`, recording for each reading the AC command attempted (if
any). -/
def process_temps (publish_ok : Bool) (s : ManagerState) :
    List ℚ → List (Option Bool)
  | [] => []
  | t :: rest =>
    let r := handle_message publish_ok s "office/dht" (dht_payload t)
    acCommandOf r.2 :: process_temps publish_ok r.1 rest

/-- Runs a sequence of control re-evaluations: each input installs a current
temperature and occupancy value (a temperature update or occupancy change)
and re-runs `check_and_control_ac`; the attempted commands are collected. -/
def run_control (publish_ok : Bool) (s : ManagerState) :
    List (Option ℚ × Bool) → List Bool
  | [] => []
  | (t, occ) :: rest =>
    let r := check_and_control_ac publish_ok
      {s with current_temperature := t, current_occupancy := occ}
    match acCommandOf r.2 with
    | some c => c :: run_control publish_ok r.1 rest
    | none => run_control publish_ok r.1 rest

end DataManagerApp

/-- Severity grades of a threshold alert. -/
inductive Severity where
  | WARNING
  | ALARM
deriving DecidableEq, Repr

/-- A set of four bounds for one tracked quantity. The repository's intended
invariant is `lowAlarm < lowWarning < highWarning < highAlarm`. -/
structure ThresholdSet where
  lowAlarm : ℚ
  lowWarning : ℚ
  highWarning : ℚ
  highAlarm : ℚ
deriving DecidableEq, Repr

/-- The per-quantity branch chain of
`MqttDataCollector.check_temperature_humidity_thresholds`, abstracted over
the four bounds: `value >= highAlarm` → alarm at `highAlarm`, `elif value >=
highWarning` → warning at `highWarning`, `elif value <= lowAlarm` → alarm at
`lowAlarm`, `elif value <= lowWarning` → warning at `lowWarning`, else no
alert. -/
def evaluateThreshold (t : ThresholdSet) (value : ℚ) : Option (Severity × ℚ) :=
  if value ≥ t.highAlarm then some (.ALARM, t.highAlarm)
  else if value ≥ t.highWarning then some (.WARNING, t.highWarning)
  else if value ≤ t.lowAlarm then some (.ALARM, t.lowAlarm)
  else if value ≤ t.lowWarning then some (.WARNING, t.lowWarning)
  else none

namespace MqttDataCollector

/-- The temperature bounds hard-coded in
`check_temperature_humidity_thresholds`. -/
def temp_thresholds : ThresholdSet where
  lowAlarm := 18
  lowWarning := 20
  highWarning := 26
  highAlarm := 28

/-- The humidity bounds hard-coded in
`check_temperature_humidity_thresholds`. -/
def humidity_thresholds : ThresholdSet where
  lowAlarm := 30
  lowWarning := 40
  highWarning := 70
  highAlarm := 75

/-- Effects of `MqttDataCollector.create_alert`: the alert row is always
inserted; the MQTT publish to the severity-specific topic happens only when
the client is connected. -/
def create_alert (connected : Bool) (severity alert_type device_id topic : String)
    (value threshold : ℚ) : List Effect :=
  .insert_alert alert_type severity "DHT_Sensor" device_id topic value threshold
    :: (if connected then
          [if severity == "ALARM" then Effect.publish_alarm else Effect.publish_warning]
        else [])

/-- The `if temperature is not None:` block of
`check_temperature_humidity_thresholds`: the four-way `if / elif` chain with
the hard-coded temperature bounds, each firing branch calling
`create_alert`. -/
def check_temp_block (connected : Bool) (device_id topic : String) :
    Option ℚ → List Effect
  | none => []
  | some t =>
    if t ≥ temp_thresholds.highAlarm then
      create_alert connected "ALARM" "High Temperature" device_id topic t
        temp_thresholds.highAlarm
    else if t ≥ temp_thresholds.highWarning then
      create_alert connected "WARNING" "High Temperature" device_id topic t
        temp_thresholds.highWarning
    else if t ≤ temp_thresholds.lowAlarm then
      create_alert connected "ALARM" "Low Temperature" device_id topic t
        temp_thresholds.lowAlarm
    else if t ≤ temp_thresholds.lowWarning then
      create_alert connected "WARNING" "Low Temperature" device_id topic t
        temp_thresholds.lowWarning
    else []

/-- The `if humidity is not None:` block of
`check_temperature_humidity_thresholds`, mirroring the temperature block
with the humidity bounds. -/
def check_humidity_block (connected : Bool) (device_id topic : String) :
    Option ℚ → List Effect
  | none => []
  | some h =>
    if h ≥ humidity_thresholds.highAlarm then
      create_alert connected "ALARM" "High Humidity" device_id topic h
        humidity_thresholds.highAlarm
    else if h ≥ humidity_thresholds.highWarning then
      create_alert connected "WARNING" "High Humidity" device_id topic h
        humidity_thresholds.highWarning
    else if h ≤ humidity_thresholds.lowAlarm then
      create_alert connected "ALARM" "Low Humidity" device_id topic h
        humidity_thresholds.lowAlarm
    else if h ≤ humidity_thresholds.lowWarning then
      create_alert connected "WARNING" "Low Humidity" device_id topic h
        humidity_thresholds.lowWarning
    else []

/-- Embedding of `check_temperature_humidity_thresholds`: for each quantity
that is present, its four-way `if / elif` chain runs. -/
def check_temperature_humidity_thresholds (connected : Bool)
    (temperature humidity : Option ℚ) (device_id topic : String) : List Effect :=
  check_temp_block connected device_id topic temperature
    ++ check_humidity_block connected device_id topic humidity

/-- Embedding of `MqttDataCollector.process_message`: sensor branch
(`'DHT_Sensor' in device_type or 'temperature' in payload or 'humidity' in
payload`) stores the reading and runs the threshold check; actuator branch
(`'Actuator' in device_type or 'button' in device_type.lower() or 'relay' in
device_type.lower()`) stores the actuator row; in every case exactly one
system-log line is appended afterwards. -/
def process_message (connected : Bool) (topic : String) (p : Payload) :
    List Effect :=
  let device_type := p.device_type.getD "Unknown"
  let device_id := p.device_id.getD "unknown"
  (if containsSubstring device_type "DHT_Sensor" || p.temperature.isSome
      || p.humidity.isSome then
     .insert_sensor_data device_type device_id topic p.temperature p.humidity
       :: check_temperature_humidity_thresholds connected p.temperature
            p.humidity device_id topic
   else if containsSubstring device_type "Actuator"
       || containsSubstring device_type.toLower "button"
       || containsSubstring device_type.toLower "relay" then
     [.insert_actuator_data device_type device_id topic
        (p.action.getD "") (p.state.getD "") (p.value.getD "")]
   else [])
  ++ [.insert_system_log "INFO" "DataCollector"
        ("Received message from " ++ device_type ++ " on topic " ++ topic)]

/-- Embedding of `MqttDataCollector.process_text_message`: one system-log
line recording the topic and the raw text payload. -/
def process_text_message (topic payload : String) : List Effect :=
  [.insert_system_log "INFO" "DataCollector"
     ("Received text message on topic " ++ topic ++ ": " ++ payload)]

/-- Embedding of `MqttDataCollector.on_message`: a successful JSON decode
goes to `process_message`; a `JSONDecodeError` re-reads the payload as text
and goes to `process_text_message`. -/
def on_message (connected : Bool) (topic : String) (decoded : Option Payload)
    (raw_text : String) : List Effect :=
  match decoded with
  | some p => process_message connected topic p
  | none => process_text_message topic raw_text

end MqttDataCollector

/-- A row of the `sensor_data` table, as inserted by
`DatabaseManager.insert_sensor_data` (timestamps abstracted away; list order
stands for insertion/chronological order). -/
structure SensorRow where
  device_type : String
  device_id : String
  topic : String
  temperature : Option ℚ
  humidity : Option ℚ
  value : Option String
  status : Option String
  message : Option String
deriving DecidableEq, Repr

/-- A row of the `actuator_data` table. -/
structure ActuatorRow where
  device_type : String
  device_id : String
  topic : String
  action : Option String
  state : Option String
  value : Option String
deriving DecidableEq, Repr

/-- A row of the `alert_log` table. -/
structure AlertRow where
  alert_type : String
  severity : String
  device_type : Option String
  device_id : Option String
  topic : Option String
  message : Option String
  value : Option ℚ
  threshold : Option ℚ
  acknowledged : Bool
deriving DecidableEq, Repr

/-- A row of the `system_log` table. -/
structure SystemLogRow where
  log_level : String
  component : String
  message : String
deriving DecidableEq, Repr

/-- The four tables managed by `DatabaseManager`. -/
structure Database where
  sensor_data : List SensorRow
  actuator_data : List ActuatorRow
  alert_log : List AlertRow
  system_log : List SystemLogRow
deriving DecidableEq, Repr

/-- Where, if anywhere, a `DatabaseManager` operation's `try` block fails:
`ok` = no exception; `failBeforeCommit` = an exception before `conn.commit()`
(the row is not persisted); `failAfterCommit` = an exception after the commit
but before the `return` (the row is persisted but the except branch still
runs). Every failure is caught by the operation's own `except` clause. -/
inductive DbOutcome where
  | ok
  | failBeforeCommit
  | failAfterCommit
deriving DecidableEq, Repr

namespace DatabaseManager

/-- Embedding of `DatabaseManager.insert_sensor_data`: appends one row and
returns `True`, or returns `False` when its `try` block raised (the row
surviving exactly when the failure came after the commit). -/
def insert_sensor_data (outcome : DbOutcome) (db : Database) (row : SensorRow) :
    Database × Bool :=
  match outcome with
  | .ok => ({db with sensor_data := db.sensor_data ++ [row]}, true)
  | .failBeforeCommit => (db, false)
  | .failAfterCommit => ({db with sensor_data := db.sensor_data ++ [row]}, false)

/-- Embedding of `DatabaseManager.insert_actuator_data`. -/
def insert_actuator_data (outcome : DbOutcome) (db : Database) (row : ActuatorRow) :
    Database × Bool :=
  match outcome with
  | .ok => ({db with actuator_data := db.actuator_data ++ [row]}, true)
  | .failBeforeCommit => (db, false)
  | .failAfterCommit => ({db with actuator_data := db.actuator_data ++ [row]}, false)

/-- Embedding of `DatabaseManager.insert_system_log`. -/
def insert_system_log (outcome : DbOutcome) (db : Database) (row : SystemLogRow) :
    Database × Bool :=
  match outcome with
  | .ok => ({db with system_log := db.system_log ++ [row]}, true)
  | .failBeforeCommit => (db, false)
  | .failAfterCommit => ({db with system_log := db.system_log ++ [row]}, false)

/-- Embedding of `DatabaseManager.insert_alert`: on success returns the new
row id (`cursor.lastrowid`, the 1-based position of the appended row); on any
caught failure returns `None`. -/
def insert_alert (outcome : DbOutcome) (db : Database) (row : AlertRow) :
    Database × Option Nat :=
  match outcome with
  | .ok => ({db with alert_log := db.alert_log ++ [row]}, some (db.alert_log.length + 1))
  | .failBeforeCommit => (db, none)
  | .failAfterCommit => ({db with alert_log := db.alert_log ++ [row]}, none)

/-- Embedding of `DatabaseManager.get_recent_sensor_data`: newest rows
first, optionally filtered by device type, truncated to `limit`; the empty
list on any caught failure. -/
def get_recent_sensor_data (outcome : DbOutcome) (db : Database) (limit : Nat)
    (device_type : Option String) : List SensorRow :=
  match outcome with
  | .ok =>
    (((match device_type with
       | some dt => db.sensor_data.filter fun r => r.device_type == dt
       | none => db.sensor_data) : List SensorRow).reverse).take limit
  | _ => []

/-- Embedding of `DatabaseManager.get_recent_alerts`: newest rows first,
optionally filtered by severity and acknowledgement, truncated to `limit`;
the empty list on any caught failure. -/
def get_recent_alerts (outcome : DbOutcome) (db : Database) (limit : Nat)
    (severity : Option String) (acknowledged : Option Bool) : List AlertRow :=
  match outcome with
  | .ok =>
    ((db.alert_log.filter fun r =>
        (match severity with | some sv => r.severity == sv | none => true)
        && (match acknowledged with | some a => r.acknowledged == a | none => true)
      ).reverse).take limit
  | _ => []

end DatabaseManager

namespace DataManagerApp

/-- The manager state right after `toggle_connection` succeeds: collection
active and the MQTT client connected, everything else as in `__init__`. -/
def active_state : ManagerState :=
  {initial_state with is_active := true, connected := true}

/-- The attempted command recorded by `send_ac_control_command` is the
requested command, whether or not the publish succeeded. -/
theorem acCommandOf_send (b c : Bool) :
    acCommandOf (send_ac_control_command b c) = some c := by
  cases b <;> rfl

/-- `check_and_control_ac` does nothing when the manager is inactive or
disconnected. -/
theorem check_no_guard (b : Bool) (s : ManagerState)
    (h : s.is_active = false ∨ s.connected = false) :
    check_and_control_ac b s = (s, []) := by
  unfold check_and_control_ac
  rcases h with h | h <;> simp [h]

/-- `check_and_control_ac` does nothing without a temperature reading. -/
theorem check_no_temp (b : Bool) (s : ManagerState)
    (h : s.current_temperature = none) :
    check_and_control_ac b s = (s, []) := by
  unfold check_and_control_ac
  split
  · rfl
  · rw [h]

/-- `check_and_control_ac` does nothing when the decided command equals the
last command sent. -/
theorem check_no_change (b : Bool) (s : ManagerState) (t : ℚ)
    (ht : s.current_temperature = some t)
    (heq : some (should_ac_be_on s t) = s.last_ac_command) :
    check_and_control_ac b s = (s, []) := by
  unfold check_and_control_ac
  split
  · rfl
  · rw [ht]
    exact if_neg fun hne => hne heq

/-- `check_and_control_ac` sends the decided command and records it in
`last_ac_command` when it differs from the last command sent. -/
theorem check_spec_pos (b : Bool) (s : ManagerState) (t : ℚ)
    (ht : s.current_temperature = some t)
    (ha : s.is_active = true) (hc : s.connected = true)
    (hne : some (should_ac_be_on s t) ≠ s.last_ac_command) :
    check_and_control_ac b s
      = ({s with last_ac_command := some (should_ac_be_on s t)},
         send_ac_control_command b (should_ac_be_on s t)) := by
  unfold check_and_control_ac
  rw [ha, hc]
  simp only [Bool.not_true, Bool.or_self, Bool.false_eq_true, if_false]
  rw [ht]
  exact if_pos hne

/-- Case analysis on one `check_and_control_ac` evaluation, stated for two
publish-outcome flags at once (the branch taken does not depend on the
flag): either nothing happens for both, or the decided command differed from
the last one and was sent and recorded for both. -/
theorem check_cases₂ (b₁ b₂ : Bool) (s : ManagerState) :
    (check_and_control_ac b₁ s = (s, []) ∧ check_and_control_ac b₂ s = (s, []))
    ∨ ∃ t, s.current_temperature = some t
        ∧ some (should_ac_be_on s t) ≠ s.last_ac_command
        ∧ check_and_control_ac b₁ s
            = ({s with last_ac_command := some (should_ac_be_on s t)},
               send_ac_control_command b₁ (should_ac_be_on s t))
        ∧ check_and_control_ac b₂ s
            = ({s with last_ac_command := some (should_ac_be_on s t)},
               send_ac_control_command b₂ (should_ac_be_on s t)) := by
  by_cases ha : s.is_active = true
  · by_cases hc : s.connected = true
    · rcases hts : s.current_temperature with _ | t
      · exact Or.inl ⟨check_no_temp b₁ s hts, check_no_temp b₂ s hts⟩
      · by_cases hne : some (should_ac_be_on s t) = s.last_ac_command
        · exact Or.inl ⟨check_no_change b₁ s t hts hne, check_no_change b₂ s t hts hne⟩
        · refine Or.inr ⟨t, rfl, hne, ?_, ?_⟩
          · have hcp := check_spec_pos b₁ s t hts ha hc hne
            rw [hts] at hcp
            exact hcp
          · have hcp := check_spec_pos b₂ s t hts ha hc hne
            rw [hts] at hcp
            exact hcp
    · exact Or.inl ⟨check_no_guard b₁ s (Or.inr (Bool.eq_false_iff.mpr hc)),
        check_no_guard b₂ s (Or.inr (Bool.eq_false_iff.mpr hc))⟩
  · exact Or.inl ⟨check_no_guard b₁ s (Or.inl (Bool.eq_false_iff.mpr ha)),
      check_no_guard b₂ s (Or.inl (Bool.eq_false_iff.mpr ha))⟩

/-- Single-flag corollary of `check_cases₂`. -/
theorem check_cases (b : Bool) (s : ManagerState) :
    check_and_control_ac b s = (s, [])
    ∨ ∃ t, s.current_temperature = some t
        ∧ some (should_ac_be_on s t) ≠ s.last_ac_command
        ∧ check_and_control_ac b s
            = ({s with last_ac_command := some (should_ac_be_on s t)},
               send_ac_control_command b (should_ac_be_on s t)) := by
  rcases check_cases₂ b b s with ⟨h, _⟩ | ⟨t, ht, hne, h, _⟩
  · exact Or.inl h
  · exact Or.inr ⟨t, ht, hne, h⟩

end DataManagerApp

/-- The payload published by the repository's occupancy sensor emulator
(`src/emulators/button_actuator.py`, `publish_status`): it always carries
`action`, `state`, `occupancy` and `value` fields. -/
def occupancy_emulator_payload : Payload where
  device_type := some "Occupancy_Sensor"
  device_id := some "occ1"
  timestamp := none
  temperature := none
  humidity := none
  action := some "occupied"
  state := some "ON"
  value := some "1"
  occupancy := some "Occupied"

/-- An active manager state with a vacant office, a 22-degree reading and no
previous AC command. -/
def c4_state : DataManagerApp.ManagerState :=
  {DataManagerApp.active_state with
    current_temperature := some 22, current_occupancy := false}

/-- An active manager state with an occupied office, a mid-band reading of
25 degrees and the AC already commanded off. -/
def c5_state : DataManagerApp.ManagerState :=
  {DataManagerApp.active_state with
    current_temperature := some 25, current_occupancy := true,
    last_ac_command := some false}

/-- C1: the hysteresis scenario fails on the code. With `occupied = true`
throughout, `temp_warning_low = 18` and `temp_warning_high = 28` (the
defaults), processing the temperature sequence `[30, 25, 17]` through
`handle_message` issues the commands `[on, off, (no command)]` — the
mid-range reading 25 publishes a turn-off command (because
`should_ac_be_on` is initialised to `False` and no rule fires in the
hysteresis band) and the reading 17 then publishes nothing — not the
claimed `[on, (no command), off]`. -/
theorem hysteresis_sequence_actual_commands :
    DataManagerApp.process_temps true
        {DataManagerApp.active_state with current_occupancy := true}
        [30, 25, 17]
      = [some true, some false, none]
    ∧ ([some true, some false, none] : List (Option Bool))
        ≠ [some true, none, some false] := by
  constructor
  · rfl
  · decide

/-- C2: classification order fails on the code. The occupancy emulator's
payload (`device_type = "Occupancy_Sensor"` with `action`, `state`,
`occupancy` and `value` fields) matches the actuator branch of
`handle_message` — which is evaluated before the `Occupancy_Sensor` branch —
so the message is stored as actuator data, the occupancy state is not
updated, and no control re-evaluation runs. -/
theorem occupancy_message_classified_as_actuator :
    (DataManagerApp.handle_message true DataManagerApp.active_state
        "office/occupancy" occupancy_emulator_payload).1.current_occupancy = false
    ∧ (DataManagerApp.handle_message true DataManagerApp.active_state
        "office/occupancy" occupancy_emulator_payload).2
      = [Effect.insert_actuator_data "Occupancy_Sensor" "occ1" "office/occupancy"
           "occupied" "ON" "1", Effect.gui_log]
    ∧ acCommandOf (DataManagerApp.handle_message true DataManagerApp.active_state
        "office/occupancy" occupancy_emulator_payload).2 = none := by
  refine ⟨rfl, ?_, rfl⟩
  rfl

/-- C3: threshold evaluation under well-ordered bounds: the branch chain
returns at most one (severity, boundary) pair, returns an ALARM whenever the
value reaches an alarm bound, and the inclusive comparisons make a value
exactly at a bound trigger that bound's alert. -/
theorem evaluate_threshold_alarm_and_boundaries
    (t : ThresholdSet) (v : ℚ)
    (h1 : t.lowAlarm < t.lowWarning) (h2 : t.lowWarning < t.highWarning)
    (h3 : t.highWarning < t.highAlarm) :
    (∀ p q, evaluateThreshold t v = some p → evaluateThreshold t v = some q → p = q)
    ∧ (v ≥ t.highAlarm → evaluateThreshold t v = some (.ALARM, t.highAlarm))
    ∧ (v ≤ t.lowAlarm → evaluateThreshold t v = some (.ALARM, t.lowAlarm))
    ∧ (v = t.highAlarm → evaluateThreshold t v = some (.ALARM, t.highAlarm))
    ∧ (v = t.lowAlarm → evaluateThreshold t v = some (.ALARM, t.lowAlarm))
    ∧ (v = t.highWarning → evaluateThreshold t v = some (.WARNING, t.highWarning))
    ∧ (v = t.lowWarning → evaluateThreshold t v = some (.WARNING, t.lowWarning)) := by
  refine ⟨fun p q hp hq => by rw [hp] at hq; exact (Option.some_inj.mp hq), ?_, ?_, ?_, ?_, ?_, ?_⟩
  · intro h
    unfold evaluateThreshold
    rw [if_pos h]
  · intro h
    unfold evaluateThreshold
    rw [if_neg (by push_neg; linarith), if_neg (by push_neg; linarith), if_pos h]
  · intro h
    unfold evaluateThreshold
    rw [if_pos (le_of_eq h.symm)]
  · intro h
    unfold evaluateThreshold
    rw [if_neg (by push_neg; linarith), if_neg (by push_neg; linarith),
        if_pos (le_of_eq h)]
  · intro h
    unfold evaluateThreshold
    rw [if_neg (by push_neg; linarith), if_pos (ge_of_eq h)]
  · intro h
    unfold evaluateThreshold
    rw [if_neg (by push_neg; linarith), if_neg (by push_neg; linarith),
        if_neg (by push_neg; linarith), if_pos (le_of_eq h)]

/-- Witness for C3 at the concrete bounds (0, 1, 2, 3): a value at the high
alarm bound yields an ALARM there. -/
theorem evaluate_threshold_alarm_and_boundaries_witness :
    evaluateThreshold ⟨0, 1, 2, 3⟩ 3 = some (.ALARM, 3) :=
  (evaluate_threshold_alarm_and_boundaries ⟨0, 1, 2, 3⟩ 3
    (by norm_num) (by norm_num) (by norm_num)).2.1 (by norm_num)

/-- C4: with the control loop active, a temperature reading present and the
office vacant, the decision is always off, whatever the temperature: a
turn-off command is issued unless the last command was already off, and
afterwards `last_ac_command` is off. -/
theorem vacant_implies_off (b : Bool) (s : DataManagerApp.ManagerState) (t : ℚ)
    (ha : s.is_active = true) (hc : s.connected = true)
    (ht : s.current_temperature = some t) (ho : s.current_occupancy = false) :
    acCommandOf (DataManagerApp.check_and_control_ac b s).2
      = (if s.last_ac_command = some false then none else some false)
    ∧ (DataManagerApp.check_and_control_ac b s).1.last_ac_command = some false := by
  have hshould : DataManagerApp.should_ac_be_on s t = false := by
    unfold DataManagerApp.should_ac_be_on
    rw [ho]
    simp
  by_cases hl : s.last_ac_command = some false
  · have := DataManagerApp.check_no_change b s t ht (by rw [hshould, hl])
    rw [this]
    simp [acCommandOf, hl]
  · have hne : some (DataManagerApp.should_ac_be_on s t) ≠ s.last_ac_command := by
      rw [hshould]
      exact fun h => hl h.symm
    have hcheck := DataManagerApp.check_spec_pos b s t ht ha hc hne
    rw [hcheck, hshould, DataManagerApp.acCommandOf_send, if_neg hl]
    exact ⟨rfl, rfl⟩

/-- Witness for C4: a vacant office at 22 degrees with no previous command
issues a turn-off command and records it. -/
theorem vacant_implies_off_witness :
    acCommandOf (DataManagerApp.check_and_control_ac true c4_state).2
      = (if c4_state.last_ac_command = some false then none else some false)
    ∧ (DataManagerApp.check_and_control_ac true c4_state).1.last_ac_command
      = some false :=
  vacant_implies_off true c4_state 22 rfl rfl rfl rfl

namespace DataManagerApp

/-- The empty effect list carries no command attempt. -/
theorem acCommandOf_nil : acCommandOf [] = none := rfl

/-- Unfolding of a `run_control` step that attempts no command. -/
theorem run_control_cons_none (b : Bool) (s : ManagerState) (tm : Option ℚ)
    (occ : Bool) (rest : List (Option ℚ × Bool))
    (h : acCommandOf (check_and_control_ac b
          {s with current_temperature := tm, current_occupancy := occ}).2 = none) :
    run_control b s ((tm, occ) :: rest)
      = run_control b (check_and_control_ac b
          {s with current_temperature := tm, current_occupancy := occ}).1 rest := by
  show (match acCommandOf (check_and_control_ac b
          {s with current_temperature := tm, current_occupancy := occ}).2 with
        | some c => c :: run_control b (check_and_control_ac b
            {s with current_temperature := tm, current_occupancy := occ}).1 rest
        | none => run_control b (check_and_control_ac b
            {s with current_temperature := tm, current_occupancy := occ}).1 rest) = _
  rw [h]

/-- Unfolding of a `run_control` step that attempts the command `c`. -/
theorem run_control_cons_some (b : Bool) (s : ManagerState) (tm : Option ℚ)
    (occ : Bool) (rest : List (Option ℚ × Bool)) (c : Bool)
    (h : acCommandOf (check_and_control_ac b
          {s with current_temperature := tm, current_occupancy := occ}).2 = some c) :
    run_control b s ((tm, occ) :: rest)
      = c :: run_control b (check_and_control_ac b
          {s with current_temperature := tm, current_occupancy := occ}).1 rest := by
  show (match acCommandOf (check_and_control_ac b
          {s with current_temperature := tm, current_occupancy := occ}).2 with
        | some c => c :: run_control b (check_and_control_ac b
            {s with current_temperature := tm, current_occupancy := occ}).1 rest
        | none => run_control b (check_and_control_ac b
            {s with current_temperature := tm, current_occupancy := occ}).1 rest) = _
  rw [h]

/-- Along any run of control re-evaluations the attempted commands form a
chain of pairwise-different neighbours, and the first attempted command
differs from the `last_ac_command` the run started with. -/
theorem run_control_chain_aux (b : Bool) :
    ∀ (inputs : List (Option ℚ × Bool)) (s : ManagerState),
      List.Chain' (fun x y => x ≠ y) (run_control b s inputs)
      ∧ ∀ c, (run_control b s inputs).head? = some c →
          s.last_ac_command ≠ some c := by
  intro inputs
  induction inputs with
  | nil =>
    intro s
    exact ⟨List.chain'_nil, fun c h => by simp [run_control] at h⟩
  | cons p rest ih =>
    intro s
    obtain ⟨tm, occ⟩ := p
    rcases check_cases b
        {s with current_temperature := tm, current_occupancy := occ} with
      hnone | ⟨t, _, hne, hpos⟩
    · have hcmd : acCommandOf (check_and_control_ac b
          {s with current_temperature := tm, current_occupancy := occ}).2 = none := by
        rw [hnone]
        exact acCommandOf_nil
      rw [run_control_cons_none b s tm occ rest hcmd, hnone]
      exact ⟨(ih _).1, fun c h =>
        (ih {s with current_temperature := tm, current_occupancy := occ}).2 c h⟩
    · have hcmd : acCommandOf (check_and_control_ac b
          {s with current_temperature := tm, current_occupancy := occ}).2
          = some (should_ac_be_on
              {s with current_temperature := tm, current_occupancy := occ} t) := by
        rw [hpos]
        exact acCommandOf_send b _
      rw [run_control_cons_some b s tm occ rest _ hcmd, hpos]
      refine ⟨?_, ?_⟩
      · rw [List.chain'_cons']
        constructor
        · intro y hy
          have hlast := (ih _).2 y (Option.mem_def.mp hy)
          intro hxy
          exact hlast (congrArg some hxy)
        · exact (ih _).1
      · intro c hc
        simp only [List.head?_cons, Option.some_inj] at hc
        intro habs
        apply hne
        rw [hc]
        exact habs.symm

end DataManagerApp

/-- C5: commands are edge-triggered. A command is attempted only when the
decided value differs from `last_ac_command`, after which `last_ac_command`
holds the decided value; when no command is attempted the state is
unchanged; when the decided value equals `last_ac_command` nothing at all
happens; and along any run of control re-evaluations no two consecutive
attempted commands are equal. -/
theorem edge_triggered_command_invariant :
    (∀ (b : Bool) (s : DataManagerApp.ManagerState) (c : Bool),
        acCommandOf (DataManagerApp.check_and_control_ac b s).2 = some c →
          s.last_ac_command ≠ some c
          ∧ (DataManagerApp.check_and_control_ac b s).1.last_ac_command = some c)
    ∧ (∀ (b : Bool) (s : DataManagerApp.ManagerState),
        acCommandOf (DataManagerApp.check_and_control_ac b s).2 = none →
          (DataManagerApp.check_and_control_ac b s).1 = s)
    ∧ (∀ (b : Bool) (s : DataManagerApp.ManagerState) (t : ℚ),
        s.current_temperature = some t →
        some (DataManagerApp.should_ac_be_on s t) = s.last_ac_command →
        DataManagerApp.check_and_control_ac b s = (s, []))
    ∧ (∀ (b : Bool) (s : DataManagerApp.ManagerState)
        (inputs : List (Option ℚ × Bool)),
        List.Chain' (fun x y => x ≠ y) (DataManagerApp.run_control b s inputs)) := by
  refine ⟨?_, ?_, ?_, ?_⟩
  · intro b s c hc
    rcases DataManagerApp.check_cases b s with hnone | ⟨t, _, hne, hpos⟩
    · rw [hnone] at hc
      cases hc
    · rw [hpos] at hc
      rw [DataManagerApp.acCommandOf_send] at hc
      injection hc with hc
      constructor
      · rw [← hc]
        exact fun h => hne h.symm
      · rw [hpos, ← hc]
  · intro b s hc
    rcases DataManagerApp.check_cases b s with hnone | ⟨t, _, _, hpos⟩
    · rw [hnone]
    · rw [hpos] at hc
      rw [DataManagerApp.acCommandOf_send] at hc
      cases hc
  · exact fun b s t ht heq => DataManagerApp.check_no_change b s t ht heq
  · exact fun b s inputs => (DataManagerApp.run_control_chain_aux b inputs s).1

/-- Witness for C5: a mid-band reading with the AC already off and the
office occupied leaves state and bus untouched. -/
theorem edge_triggered_command_invariant_witness :
    DataManagerApp.check_and_control_ac true c5_state = (c5_state, []) :=
  edge_triggered_command_invariant.2.2.1 true c5_state 25 rfl (by decide)

/-- C9: the publish step inside `send_ac_control_command` catches every
exception, so `last_ac_command` is updated to the decided value whether or
not the publish succeeded, the attempted command is the same either way, and
re-evaluating the resulting state issues nothing — a failed publish is never
re-attempted until the decision itself changes. -/
theorem last_command_updated_despite_publish_failure
    (b1 b2 : Bool) (s : DataManagerApp.ManagerState) :
    (DataManagerApp.check_and_control_ac b1 s).1
        = (DataManagerApp.check_and_control_ac b2 s).1
    ∧ acCommandOf (DataManagerApp.check_and_control_ac b1 s).2
        = acCommandOf (DataManagerApp.check_and_control_ac b2 s).2
    ∧ DataManagerApp.check_and_control_ac b2
        (DataManagerApp.check_and_control_ac b1 s).1
      = ((DataManagerApp.check_and_control_ac b1 s).1, []) := by
  rcases DataManagerApp.check_cases₂ b1 b2 s with ⟨h1, h2⟩ | ⟨t, ht, hne, h1, h2⟩
  · rw [h1, h2]
    exact ⟨rfl, rfl, rfl⟩
  · rw [h1, h2]
    refine ⟨rfl,
      by rw [DataManagerApp.acCommandOf_send, DataManagerApp.acCommandOf_send], ?_⟩
    apply DataManagerApp.check_no_change b2 _ t
    · exact ht
    · rfl

/-- The empty effect list has system-log count zero. -/
@[simp] theorem count_system_log_nil : count_system_log [] = 0 := rfl

/-- A sensor-data insert does not change the system-log count. -/
@[simp] theorem count_system_log_cons_sensor (a b c : String) (d e : Option ℚ)
    (l : List Effect) :
    count_system_log (.insert_sensor_data a b c d e :: l) = count_system_log l := rfl

/-- An actuator-data insert does not change the system-log count. -/
@[simp] theorem count_system_log_cons_actuator (a b c d e f : String)
    (l : List Effect) :
    count_system_log (.insert_actuator_data a b c d e f :: l)
      = count_system_log l := rfl

/-- An alert insert does not change the system-log count. -/
@[simp] theorem count_system_log_cons_alert (a b c d e : String) (v w : ℚ)
    (l : List Effect) :
    count_system_log (.insert_alert a b c d e v w :: l) = count_system_log l := rfl

/-- A warning publish does not change the system-log count. -/
@[simp] theorem count_system_log_cons_warning (l : List Effect) :
    count_system_log (.publish_warning :: l) = count_system_log l := rfl

/-- An alarm publish does not change the system-log count. -/
@[simp] theorem count_system_log_cons_alarm (l : List Effect) :
    count_system_log (.publish_alarm :: l) = count_system_log l := rfl

/-- An AC command publish does not change the system-log count. -/
@[simp] theorem count_system_log_cons_ac (c d : Bool) (l : List Effect) :
    count_system_log (.publish_ac_command c d :: l) = count_system_log l := rfl

/-- A GUI log append does not change the system-log count. -/
@[simp] theorem count_system_log_cons_gui (l : List Effect) :
    count_system_log (.gui_log :: l) = count_system_log l := rfl

/-- A system-log insert increments the system-log count. -/
@[simp] theorem count_system_log_cons_log (a b c : String) (l : List Effect) :
    count_system_log (.insert_system_log a b c :: l) = count_system_log l + 1 := by
  unfold count_system_log
  rw [List.countP_cons]
  rfl

/-- Splitting the system-log count over list concatenation. -/
@[simp] theorem count_system_log_append (l₁ l₂ : List Effect) :
    count_system_log (l₁ ++ l₂) = count_system_log l₁ + count_system_log l₂ :=
  List.countP_append _ _ _

namespace DataManagerApp

/-- `send_ac_control_command` writes no system-log entry. -/
theorem count_send_eq_zero (b c : Bool) :
    count_system_log (send_ac_control_command b c) = 0 := by
  cases b <;> rfl

/-- `check_and_control_ac` writes no system-log entry. -/
theorem count_check_eq_zero (b : Bool) (s : ManagerState) :
    count_system_log (check_and_control_ac b s).2 = 0 := by
  rcases check_cases b s with hnone | ⟨t, _, _, hpos⟩
  · rw [hnone]
    rfl
  · rw [hpos]
    exact count_send_eq_zero b _

/-- The `if temp is not None:` control block writes no system-log entry. -/
theorem count_sensor_ac_eq_zero (b : Bool) (s : ManagerState) (temp : Option ℚ) :
    count_system_log (sensor_branch_ac b s temp).2 = 0 := by
  rcases temp with _ | t
  · rfl
  · exact count_check_eq_zero b _

/-- The conditional warning publish writes no system-log entry. -/
theorem count_publish_warning_eff_eq_zero (s : ManagerState) :
    count_system_log (publish_warning_eff s) = 0 := by
  unfold publish_warning_eff
  split <;> rfl

/-- The conditional alarm publish writes no system-log entry. -/
theorem count_publish_alarm_eff_eq_zero (s : ManagerState) :
    count_system_log (publish_alarm_eff s) = 0 := by
  unfold publish_alarm_eff
  split <;> rfl

/-- The temperature alert block writes no system-log entry. -/
theorem count_temp_alert_eq_zero (s : ManagerState) (dt di topic : String)
    (temp : Option ℚ) :
    count_system_log (temp_alert_effects s dt di topic temp) = 0 := by
  rcases temp with _ | t
  · rfl
  · simp only [temp_alert_effects]
    split
    · simp [count_publish_alarm_eff_eq_zero]
    · split
      · simp [count_publish_warning_eff_eq_zero]
      · rfl

/-- The humidity alert block writes no system-log entry. -/
theorem count_humidity_alert_eq_zero (s : ManagerState) (dt di topic : String)
    (humidity : Option ℚ) :
    count_system_log (humidity_alert_effects s dt di topic humidity) = 0 := by
  rcases humidity with _ | h
  · rfl
  · simp only [humidity_alert_effects]
    split
    · simp [count_publish_alarm_eff_eq_zero]
    · split
      · simp [count_publish_warning_eff_eq_zero]
      · rfl

/-- `handle_message` never writes a database system-log entry, whichever
branch it takes (its logging goes to the GUI activity log only). -/
theorem count_handle_message_eq_zero (b : Bool) (s : ManagerState)
    (topic : String) (p : Payload) :
    count_system_log (handle_message b s topic p).2 = 0 := by
  unfold handle_message
  dsimp only
  split
  · simp [count_sensor_ac_eq_zero, count_temp_alert_eq_zero,
      count_humidity_alert_eq_zero]
  · split
    · rfl
    · split
      · simp [count_check_eq_zero]
      · split
        · rfl
        · rfl

end DataManagerApp

namespace MqttDataCollector

/-- `create_alert` writes no system-log entry. -/
theorem count_create_alert_eq_zero (connected : Bool)
    (severity alert_type device_id topic : String) (value threshold : ℚ) :
    count_system_log
      (create_alert connected severity alert_type device_id topic value threshold)
      = 0 := by
  unfold create_alert
  simp only [count_system_log_cons_alert]
  split
  · split <;> rfl
  · rfl

/-- The temperature block of the collector's threshold check writes no
system-log entry. -/
theorem count_check_temp_block_eq_zero (connected : Bool)
    (device_id topic : String) (temp : Option ℚ) :
    count_system_log (check_temp_block connected device_id topic temp) = 0 := by
  rcases temp with _ | t
  · rfl
  · simp only [check_temp_block]
    split
    · exact count_create_alert_eq_zero ..
    · split
      · exact count_create_alert_eq_zero ..
      · split
        · exact count_create_alert_eq_zero ..
        · split
          · exact count_create_alert_eq_zero ..
          · rfl

/-- The humidity block of the collector's threshold check writes no
system-log entry. -/
theorem count_check_humidity_block_eq_zero (connected : Bool)
    (device_id topic : String) (humidity : Option ℚ) :
    count_system_log (check_humidity_block connected device_id topic humidity)
      = 0 := by
  rcases humidity with _ | h
  · rfl
  · simp only [check_humidity_block]
    split
    · exact count_create_alert_eq_zero ..
    · split
      · exact count_create_alert_eq_zero ..
      · split
        · exact count_create_alert_eq_zero ..
        · split
          · exact count_create_alert_eq_zero ..
          · rfl

/-- The collector's threshold check writes no system-log entry. -/
theorem count_thresholds_eq_zero (connected : Bool)
    (temperature humidity : Option ℚ) (device_id topic : String) :
    count_system_log (check_temperature_humidity_thresholds connected
      temperature humidity device_id topic) = 0 := by
  unfold check_temperature_humidity_thresholds
  rw [count_system_log_append, count_check_temp_block_eq_zero,
    count_check_humidity_block_eq_zero]

/-- `process_message` writes exactly one system-log entry, whatever branch
it takes. -/
theorem count_process_message_eq_one (connected : Bool) (topic : String)
    (p : Payload) :
    count_system_log (process_message connected topic p) = 1 := by
  unfold process_message
  dsimp only
  rw [count_system_log_append]
  split
  · simp [count_thresholds_eq_zero]
  · split
    · simp
    · simp

end MqttDataCollector

/-- C6 counterexample: `update_thresholds` is neither atomic nor validated.
With the default configuration, an update whose second field fails to parse
still replaces the first bound (a partial update, so the configuration is
neither fully replaced nor unchanged), and a fully-parsable update whose
bounds are in a clearly invalid order (low alarm 100 above high alarm 70) is
accepted with success. -/
theorem update_thresholds_partial_update_counterexample :
    (DataManagerApp.update_thresholds DataManagerApp.initial_state
        (some 10) none none none none none none none).1
      = {DataManagerApp.initial_state with temp_alarm_low := 10}
    ∧ (DataManagerApp.update_thresholds DataManagerApp.initial_state
        (some 10) none none none none none none none).2 = false
    ∧ DataManagerApp.initial_state.temp_alarm_low = 15
    ∧ ({DataManagerApp.initial_state with temp_alarm_low := 10}
        : DataManagerApp.ManagerState) ≠ DataManagerApp.initial_state
    ∧ (DataManagerApp.update_thresholds DataManagerApp.initial_state
        (some 100) (some 90) (some 80) (some 70) (some 60) (some 50) (some 40)
        (some 30)).2 = true
    ∧ (DataManagerApp.update_thresholds DataManagerApp.initial_state
        (some 100) (some 90) (some 80) (some 70) (some 60) (some 50) (some 40)
        (some 30)).1.temp_alarm_low = 100
    ∧ (DataManagerApp.update_thresholds DataManagerApp.initial_state
        (some 100) (some 90) (some 80) (some 70) (some 60) (some 50) (some 40)
        (some 30)).1.temp_alarm_high = 70
    ∧ (70 : ℚ) < 100 := by
  decide

/-- C6 (amended): `update_thresholds` parses and assigns the eight bounds
one at a time in source order with no ordering validation: each bound is
replaced exactly when it and all bounds before it (in assignment order)
parse, keeping its previous value otherwise, and the update reports success
exactly when all eight parse — whatever the parsed values are. -/
theorem update_thresholds_field_by_field
    (s : DataManagerApp.ManagerState) (i1 i2 i3 i4 i5 i6 i7 i8 : Option ℚ) :
    (DataManagerApp.update_thresholds s i1 i2 i3 i4 i5 i6 i7 i8).2
        = (i1.isSome && i2.isSome && i3.isSome && i4.isSome && i5.isSome
           && i6.isSome && i7.isSome && i8.isSome)
    ∧ (DataManagerApp.update_thresholds s i1 i2 i3 i4 i5 i6 i7 i8).1.temp_alarm_low
        = (match i1 with
           | some v => v
           | none => s.temp_alarm_low)
    ∧ (DataManagerApp.update_thresholds s i1 i2 i3 i4 i5 i6 i7 i8).1.temp_warning_low
        = (match i1, i2 with
           | some _, some v => v
           | _, _ => s.temp_warning_low)
    ∧ (DataManagerApp.update_thresholds s i1 i2 i3 i4 i5 i6 i7 i8).1.temp_warning_high
        = (match i1, i2, i3 with
           | some _, some _, some v => v
           | _, _, _ => s.temp_warning_high)
    ∧ (DataManagerApp.update_thresholds s i1 i2 i3 i4 i5 i6 i7 i8).1.temp_alarm_high
        = (match i1, i2, i3, i4 with
           | some _, some _, some _, some v => v
           | _, _, _, _ => s.temp_alarm_high)
    ∧ (DataManagerApp.update_thresholds s i1 i2 i3 i4 i5 i6 i7 i8).1.humidity_alarm_low
        = (match i1, i2, i3, i4, i5 with
           | some _, some _, some _, some _, some v => v
           | _, _, _, _, _ => s.humidity_alarm_low)
    ∧ (DataManagerApp.update_thresholds s i1 i2 i3 i4 i5 i6 i7 i8).1.humidity_warning_low
        = (match i1, i2, i3, i4, i5, i6 with
           | some _, some _, some _, some _, some _, some v => v
           | _, _, _, _, _, _ => s.humidity_warning_low)
    ∧ (DataManagerApp.update_thresholds s i1 i2 i3 i4 i5 i6 i7 i8).1.humidity_warning_high
        = (match i1, i2, i3, i4, i5, i6, i7 with
           | some _, some _, some _, some _, some _, some _, some v => v
           | _, _, _, _, _, _, _ => s.humidity_warning_high)
    ∧ (DataManagerApp.update_thresholds s i1 i2 i3 i4 i5 i6 i7 i8).1.humidity_alarm_high
        = (match i1, i2, i3, i4, i5, i6, i7, i8 with
           | some _, some _, some _, some _, some _, some _, some _, some v => v
           | _, _, _, _, _, _, _, _ => s.humidity_alarm_high) := by
  cases i1 <;> cases i2 <;> cases i3 <;> cases i4 <;> cases i5 <;> cases i6
    <;> cases i7 <;> cases i8
    <;> exact ⟨rfl, rfl, rfl, rfl, rfl, rfl, rfl, rfl, rfl⟩

/-- C7 counterexample: in `DataManagerMQTT.on_message` a payload that fails
JSON decoding produces no database write at all — in particular zero generic
system-log entries, not the one entry the claim requires. -/
theorem manager_decode_failure_no_system_log :
    (DataManagerMQTT.on_message true DataManagerApp.active_state
        "office/sensor" none).2 = []
    ∧ count_system_log (DataManagerMQTT.on_message true
        DataManagerApp.active_state "office/sensor" none).2 = 0
    ∧ (0 : Nat) ≠ 1 := by
  refine ⟨rfl, rfl, ?_⟩
  decide

/-- C7 (amended): a payload that fails JSON decoding never raises and
persists zero sensor, actuator and alert records in both ingestion paths; in
the `MqttDataCollector` path it produces exactly one generic system-log
entry recording the topic and raw payload text, while in the
`DataManagerMQTT`/`DataManagerApp` path it produces no database record at
all (console print only) and leaves the state unchanged. -/
theorem decode_failure_effects :
    (∀ (connected : Bool) (topic raw : String),
        MqttDataCollector.on_message connected topic none raw
          = [Effect.insert_system_log "INFO" "DataCollector"
               ("Received text message on topic " ++ topic ++ ": " ++ raw)])
    ∧ (∀ (b : Bool) (s : DataManagerApp.ManagerState) (topic : String),
        DataManagerMQTT.on_message b s topic none = (s, [])) :=
  ⟨fun _ _ _ => rfl, fun _ _ _ => rfl⟩

/-- C8 counterexample: a successfully decoded sensor message processed by
`DataManagerApp.handle_message` appends zero database system-log entries,
not the one entry per message the claim requires. -/
theorem manager_sensor_message_no_system_log :
    count_system_log (DataManagerApp.handle_message true
        {DataManagerApp.active_state with current_occupancy := true}
        "office/dht" (DataManagerApp.dht_payload 25)).2 = 0
    ∧ (0 : Nat) ≠ 1 := by
  refine ⟨?_, by decide⟩
  exact DataManagerApp.count_handle_message_eq_zero ..

/-- C8 (amended): `MqttDataCollector.process_message` appends exactly one
system-log entry per successfully decoded message regardless of the branch
taken, while `DataManagerApp.handle_message` appends none (its logging goes
to the GUI activity log, not the database system log). -/
theorem system_log_per_message :
    (∀ (connected : Bool) (topic : String) (p : Payload),
        count_system_log (MqttDataCollector.process_message connected topic p) = 1)
    ∧ (∀ (b : Bool) (s : DataManagerApp.ManagerState) (topic : String) (p : Payload),
        count_system_log (DataManagerApp.handle_message b s topic p).2 = 0) :=
  ⟨MqttDataCollector.count_process_message_eq_one,
   DataManagerApp.count_handle_message_eq_zero⟩

/-- C10: every modelled `DatabaseManager` operation is total (non-raising)
at its boundary: the three boolean inserts return `False` on any caught
failure and `True` exactly on success, appending exactly one row to their
table on commit and leaving every table unchanged when the failure precedes
the commit; `insert_alert` returns the new row id on success and `None` on
any failure; and the query operations return empty results on any failure. -/
theorem db_operations_boundary_behavior :
    (∀ (db : Database) (r : SensorRow),
        DatabaseManager.insert_sensor_data .failBeforeCommit db r = (db, false)
        ∧ DatabaseManager.insert_sensor_data .failAfterCommit db r
            = ({db with sensor_data := db.sensor_data ++ [r]}, false)
        ∧ DatabaseManager.insert_sensor_data .ok db r
            = ({db with sensor_data := db.sensor_data ++ [r]}, true))
    ∧ (∀ (db : Database) (r : ActuatorRow),
        DatabaseManager.insert_actuator_data .failBeforeCommit db r = (db, false)
        ∧ DatabaseManager.insert_actuator_data .failAfterCommit db r
            = ({db with actuator_data := db.actuator_data ++ [r]}, false)
        ∧ DatabaseManager.insert_actuator_data .ok db r
            = ({db with actuator_data := db.actuator_data ++ [r]}, true))
    ∧ (∀ (db : Database) (r : SystemLogRow),
        DatabaseManager.insert_system_log .failBeforeCommit db r = (db, false)
        ∧ DatabaseManager.insert_system_log .failAfterCommit db r
            = ({db with system_log := db.system_log ++ [r]}, false)
        ∧ DatabaseManager.insert_system_log .ok db r
            = ({db with system_log := db.system_log ++ [r]}, true))
    ∧ (∀ (db : Database) (r : AlertRow),
        DatabaseManager.insert_alert .failBeforeCommit db r = (db, none)
        ∧ DatabaseManager.insert_alert .failAfterCommit db r
            = ({db with alert_log := db.alert_log ++ [r]}, none)
        ∧ DatabaseManager.insert_alert .ok db r
            = ({db with alert_log := db.alert_log ++ [r]},
               some (db.alert_log.length + 1)))
    ∧ (∀ (db : Database) (limit : Nat) (dt : Option String),
        DatabaseManager.get_recent_sensor_data .failBeforeCommit db limit dt = []
        ∧ DatabaseManager.get_recent_sensor_data .failAfterCommit db limit dt = [])
    ∧ (∀ (db : Database) (limit : Nat) (sv : Option String) (ack : Option Bool),
        DatabaseManager.get_recent_alerts .failBeforeCommit db limit sv ack = []
        ∧ DatabaseManager.get_recent_alerts .failAfterCommit db limit sv ack = []) :=
  ⟨fun _ _ => ⟨rfl, rfl, rfl⟩, fun _ _ => ⟨rfl, rfl, rfl⟩,
   fun _ _ => ⟨rfl, rfl, rfl⟩, fun _ _ => ⟨rfl, rfl, rfl⟩,
   fun _ _ _ => ⟨rfl, rfl⟩, fun _ _ _ _ => ⟨rfl, rfl⟩⟩
